import Mathlib

/-!
# Verification of `etf_holdings_downloader.py`

A shallow embedding of the ETF holdings downloader (file
`src/etf_holdings_downloader.py`) and proofs about it.

Conventions of the embedding:
* Python floats are modelled as exact rationals `ℚ`.
* Python exceptions are modelled with `Except PyErr`; the exception kinds
  that the relevant code can raise are `ValueError` (from `float(...)`),
  `IndexError` (from indexing an empty string) and `AttributeError`
  (from reading an instance attribute that was never assigned).
* Strings are handled as `List Char` (Python string slicing `x[a:b]`
  becomes `List.drop`/`List.dropLast`).
* pandas dataframes are modelled as lists of five-field rows; a cell is
  either parsed text or a float, matching what `pd.read_html` produces.
-/

set_option autoImplicit false

namespace ETF

/-- The Python exception kinds raised by the embedded code. -/
inductive PyErr where
  | valueError
  | indexError
  | attributeError
  deriving DecidableEq, Repr

instance {ε α : Type} [DecidableEq ε] [DecidableEq α] :
    DecidableEq (Except ε α) := fun x y =>
  match x, y with
  | .error a, .error b => decidable_of_iff (a = b) (by simp)
  | .ok a, .ok b => decidable_of_iff (a = b) (by simp)
  | .error _, .ok _ => .isFalse (by simp)
  | .ok _, .error _ => .isFalse (by simp)

/-- Numeric value of a decimal digit character. -/
def digitsToNat (s : List Char) : ℕ :=
  s.foldl (fun a c => 10 * a + (c.toNat - 48)) 0

/-- Parser for the unsigned decimal fragment accepted by Python's builtin
`float`: an integer part and/or a fractional part separated by one dot,
both made of decimal digits, at least one of them nonempty.
(The exponent / infinity / nan forms of `float` never arise from the
tokens this program feeds it and are not modelled.) -/
def pyFloatCore (s : List Char) : Option ℚ :=
  let ip := s.takeWhile (fun c => c ≠ '.')
  let rest := s.dropWhile (fun c => c ≠ '.')
  if rest = [] then
    if ip ≠ [] ∧ ip.all Char.isDigit then some (digitsToNat ip) else none
  else
    let fp := rest.tail
    if '.' ∈ fp then none
    else if ip = [] ∧ fp = [] then none
    else if ip.all Char.isDigit ∧ fp.all Char.isDigit then
      some ((digitsToNat ip : ℚ) + (digitsToNat fp : ℚ) / (10 : ℚ) ^ fp.length)
    else none

/-- Python's builtin `float` on a string: optional sign, then the decimal
core.  `none` models a raised `ValueError`. -/
def pyFloat? (s : List Char) : Option ℚ :=
  match s with
  | [] => none
  | c :: rest =>
      if c = '-' then (pyFloatCore rest).map (fun q => -q)
      else if c = '+' then pyFloatCore rest
      else pyFloatCore (c :: rest)

/-- Wrap the result of `float(...)`: a parse failure raises `ValueError`. -/
def toFloat (o : Option ℚ) : Except PyErr ℚ :=
  match o with
  | some q => .ok q
  | none => .error .valueError

/-- A dataframe cell as produced by `pd.read_html`: either a float or text.
`_convert_units_to_float` receives such cells. -/
inductive Cell where
  | num (q : ℚ)
  | txt (s : String)
  deriving DecidableEq, Repr

/-- `HoldingsDownloader._convert_units_to_float` on a text token, working on
the character list of the string (source lines 42–56):
```
start = 1 if x[0] == '$' else 0
if x[0] == '-':  # set negative portfolio weights to 0
    return 0
if x[-1] == '%':
    return float(x[:-1]) / 100
if x[-1] == 'K':
    return float(x[start:-1]) * 1e3
if x[-1] == 'M':
    return float(x[start:-1]) * 1e6
if x[-1] == 'B':
    return float(x[start:-1]) * 1e9
return float(x[start:])
```
Note the `%` branch slices `x[:-1]`, not `x[start:-1]`. -/
def convert_units_chars (x : List Char) : Except PyErr ℚ :=
  match x with
  | [] => .error .indexError
  | c0 :: rest =>
      let start : ℕ := if c0 = '$' then 1 else 0
      let cl := ((c0 :: rest).getLast?).getD ' '
      if c0 = '-' then .ok 0
      else if cl = '%' then
        (toFloat (pyFloat? ((c0 :: rest).dropLast))).map (fun q => q / 100)
      else if cl = 'K' then
        (toFloat (pyFloat? (((c0 :: rest).drop start).dropLast))).map
          (fun q => q * 1000)
      else if cl = 'M' then
        (toFloat (pyFloat? (((c0 :: rest).drop start).dropLast))).map
          (fun q => q * 1000000)
      else if cl = 'B' then
        (toFloat (pyFloat? (((c0 :: rest).drop start).dropLast))).map
          (fun q => q * 1000000000)
      else
        toFloat (pyFloat? ((c0 :: rest).drop start))

/-- `HoldingsDownloader._convert_units_to_float` (source lines 42–56): a
float passes through unchanged, a text token goes through the unit parser. -/
def convert_units_to_float (x : Cell) : Except PyErr ℚ :=
  match x with
  | .num q => .ok q
  | .txt s => convert_units_chars s.data

/-- A row of the scraped holdings table, five columns as renamed on source
line 92: `['Symbol', 'Description', 'Portfolio Weight', 'Shares Held',
'Market Value']`.  Cells are what `pd.read_html` produced. -/
structure Row where
  sym : Cell
  descr : Cell
  weight : Cell
  shares : Cell
  value : Cell
  deriving DecidableEq, Repr

/-- Helper for `drop_duplicates`: keep each element of the list whose value
has not been seen before (pandas `DataFrame.drop_duplicates()` keeps the
first occurrence of every duplicated row). -/
def dedupAux {α : Type} [DecidableEq α] : List α → List α → List α
  | [], _ => []
  | a :: as, seen =>
      if a ∈ seen then dedupAux as seen else a :: dedupAux as (a :: seen)

/-- pandas `DataFrame.drop_duplicates()` (source line 91): remove rows that
are exact duplicates of an earlier row, keeping first occurrences. -/
def drop_duplicates {α : Type} [DecidableEq α] (l : List α) : List α :=
  dedupAux l []

/-- The aggregation step of `_get_etf_from_schwab` (source lines 90–91):
`pd.concat(dataframe_list)` followed by `.drop_duplicates()`. -/
def aggregate (pages : List (List Row)) : List Row :=
  drop_duplicates pages.flatten

/-- Monadic map over `Except`, short-circuiting on the first error: models
a pandas `Series.apply(f)` where `f` may raise, materializing the new
column or propagating the first exception. -/
def mapExcept {α β : Type} (f : α → Except PyErr β) : List α → Except PyErr (List β)
  | [] => .ok []
  | a :: as =>
      match f a with
      | .error e => .error e
      | .ok b => (mapExcept f as).map (fun bs => b :: bs)

/-- The raw-mode normalization step of `_get_etf_from_schwab` (source lines
93–96): apply `_convert_units_to_float` to the `Portfolio Weight` column,
then `Shares Held`, then `Market Value`; an exception from any cell
propagates out. -/
def normalize_table (rows : List Row) : Except PyErr (List Row) :=
  match mapExcept (fun r => convert_units_to_float r.weight) rows with
  | .error e => .error e
  | .ok ws =>
      match mapExcept (fun r => convert_units_to_float r.shares) rows with
      | .error e => .error e
      | .ok ss =>
          match mapExcept (fun r => convert_units_to_float r.value) rows with
          | .error e => .error e
          | .ok vs =>
              .ok ((rows.zip (ws.zip (ss.zip vs))).map
                (fun p => Row.mk p.1.sym p.1.descr (.num p.2.1)
                  (.num p.2.2.1) (.num p.2.2.2)))

/-- What the website/browser yields for one symbol, the external
collaborator boundary of `_get_etf_from_schwab`: either the navigation
part fails (`NoSuchElementException`/`WebDriverException`, caught on
source lines 67–69) or the pagination loop collects a list of page
snapshots (`dataframe_list`, source lines 78–88). -/
inductive FetchResult where
  | navFail
  | pages (ps : List (List Row))

/-- `HoldingsDownloader._get_etf_from_schwab` after the browser
interaction, parametrized by the environment `env` (source lines 58–99):
on navigation failure return `False`; otherwise concatenate the page
snapshots, drop duplicate rows, rename the columns, normalize the three
numeric columns when `raw_mode` is set (any exception raised there is not
caught), write the csv and return `True`. -/
def get_etf_from_schwab (raw_mode : Bool) (env : String → FetchResult)
    (etf_symbol : String) : Except PyErr Bool :=
  match env etf_symbol with
  | .navFail => .ok false
  | .pages ps =>
      let result_df := aggregate ps
      if raw_mode then (normalize_table result_df).map (fun _ => true)
      else .ok true

/-- The mutable per-run state of `HoldingsDownloader`, plus the
observation `fetched`: the symbols for which `_get_etf_from_schwab` was
actually invoked, in call order. -/
structure RunState where
  num_files : ℕ
  valid_etfs : List String
  fetched : List String
  deriving DecidableEq, Repr

/-- `HoldingsDownloader.run_schwab_download` (source lines 102–108): loop
over `etf_symbols`; skip a symbol already in `valid_etfs`; otherwise fetch
it, and on success increment `num_files` and append it to `valid_etfs`.
An uncaught exception from `_get_etf_from_schwab` aborts the whole loop. -/
def run_schwab_download (raw_mode : Bool) (env : String → FetchResult) :
    List String → RunState → Except PyErr RunState
  | [], st => .ok st
  | s :: rest, st =>
      if s ∈ st.valid_etfs then run_schwab_download raw_mode env rest st
      else
        match get_etf_from_schwab raw_mode env s with
        | .error e => .error e
        | .ok true => run_schwab_download raw_mode env rest
            ⟨st.num_files + 1, st.valid_etfs ++ [s], st.fetched ++ [s]⟩
        | .ok false => run_schwab_download raw_mode env rest
            ⟨st.num_files, st.valid_etfs, st.fetched ++ [s]⟩

/-- The page-count computation of `_get_etf_from_schwab` (source line 73):
`math.ceil(float(page_elt.text.split(" ")[4]) / 60)`, as a function of the
parsed total-results value. -/
def num_pages (total_results : ℚ) : ℤ :=
  ⌈total_results / 60⌉

/-- The instance attributes touched by `HoldingsDownloader.__init__`;
`none` models an attribute that has never been assigned (reading it
raises `AttributeError`).  `firefox_options.headless` is folded into the
`headless` field. -/
structure InitAttrs where
  etf_symbols : Option (List String)
  valid_etfs : Option (List String)
  num_files : Option ℕ
  wait_time : Option ℕ
  raw_mode : Option Bool
  headless : Option Bool
  sort_mode : Option Bool
  log_mode : Option Bool
  quiet_mode : Option Bool
  deriving DecidableEq, Repr

/-- Python's stable ascending `list.sort()` on strings. -/
def sortStrings (l : List String) : List String :=
  l.mergeSort (fun a b => a ≤ b)

/-- `HoldingsDownloader.__init__` (source lines 29–40): assign
`etf_symbols = [symbol]`, `valid_etfs = []`, `num_files = 0`, `wait_time`,
`raw_mode`, `firefox_options.headless = not window_mode` — and nothing
else — then evaluate `if self.sort_mode:`, which reads the attribute
`sort_mode`; the constructor parameters `log_mode`, `sort_mode` and
`quiet_mode` are never stored on `self`. -/
def HoldingsDownloader_init (symbol : String)
    (raw_mode log_mode sort_mode window_mode quiet_mode : Bool)
    (wait_time : ℕ) : Except PyErr InitAttrs :=
  let self : InitAttrs :=
    { etf_symbols := some [symbol], valid_etfs := some [], num_files := some 0,
      wait_time := some wait_time, raw_mode := some raw_mode,
      headless := some (!window_mode),
      sort_mode := none, log_mode := none, quiet_mode := none }
  match self.sort_mode with
  | none => .error .attributeError
  | some b =>
      if b then .ok { self with etf_symbols := self.etf_symbols.map sortStrings }
      else .ok self

/-- A concrete holdings row used as test data. -/
def rowA : Row :=
  ⟨.txt "AAPL", .txt "Apple Inc", .txt "1.00%", .txt "10", .txt "$1.0M"⟩

/-- A concrete holdings row sharing Symbol and Description with `rowA`
but differing in the numeric columns. -/
def rowA2 : Row :=
  ⟨.txt "AAPL", .txt "Apple Inc", .txt "2.00%", .txt "20", .txt "$2.0M"⟩

/-- A concrete holdings row whose `Portfolio Weight` cell is the malformed
token `"N/A"`. -/
def rowNA : Row :=
  ⟨.txt "AAPL", .txt "Apple Inc", .txt "N/A", .txt "10", .txt "$1.0M"⟩

/-- An environment in which every symbol's page contains the malformed
row `rowNA`. -/
def envNA : String → FetchResult := fun _ => .pages [[rowNA]]

/-- An environment in which every symbol fetch succeeds with one page. -/
def envOK : String → FetchResult := fun _ => .pages [[rowA]]

theorem mem_dedupAux {α : Type} [DecidableEq α] (x : α) :
    ∀ (l seen : List α), x ∈ dedupAux l seen ↔ x ∈ l ∧ x ∉ seen := by
  intro l
  induction l with
  | nil => intro seen; simp [dedupAux]
  | cons a as ih =>
      intro seen
      by_cases ha : a ∈ seen
      · rw [dedupAux, if_pos ha, ih]
        constructor
        · exact fun h => ⟨List.mem_cons_of_mem a h.1, h.2⟩
        · rintro ⟨h1, h2⟩
          rcases List.mem_cons.mp h1 with h | h
          · exact absurd (h ▸ ha) h2
          · exact ⟨h, h2⟩
      · rw [dedupAux, if_neg ha]
        constructor
        · intro h
          rcases List.mem_cons.mp h with h | h
          · exact ⟨h ▸ List.mem_cons_self a as, h ▸ ha⟩
          · have := (ih (a :: seen)).mp h
            exact ⟨List.mem_cons_of_mem a this.1,
              fun hx => this.2 (List.mem_cons_of_mem a hx)⟩
        · rintro ⟨h1, h2⟩
          rcases List.mem_cons.mp h1 with h | h
          · exact h ▸ List.mem_cons_self a _
          · by_cases hxa : x = a
            · exact hxa ▸ List.mem_cons_self a _
            · exact List.mem_cons_of_mem a ((ih (a :: seen)).mpr
                ⟨h, fun hx => (List.mem_cons.mp hx).elim hxa h2⟩)

theorem nodup_dedupAux {α : Type} [DecidableEq α] :
    ∀ (l seen : List α), (dedupAux l seen).Nodup := by
  intro l
  induction l with
  | nil => intro seen; simp [dedupAux]
  | cons a as ih =>
      intro seen
      by_cases ha : a ∈ seen
      · rw [dedupAux, if_pos ha]; exact ih seen
      · rw [dedupAux, if_neg ha]
        refine List.nodup_cons.mpr ⟨fun hmem => ?_, ih (a :: seen)⟩
        exact ((mem_dedupAux a as (a :: seen)).mp hmem).2 (List.mem_cons_self a seen)

theorem sublist_dedupAux {α : Type} [DecidableEq α] :
    ∀ (l seen : List α), List.Sublist (dedupAux l seen) l := by
  intro l
  induction l with
  | nil => intro seen; simp [dedupAux]
  | cons a as ih =>
      intro seen
      by_cases ha : a ∈ seen
      · rw [dedupAux, if_pos ha]; exact (ih seen).cons a
      · rw [dedupAux, if_neg ha]; exact (ih (a :: seen)).cons₂ a

theorem dedupAux_seen_congr {α : Type} [DecidableEq α] :
    ∀ (l s₁ s₂ : List α), (∀ a, a ∈ s₁ ↔ a ∈ s₂) → dedupAux l s₁ = dedupAux l s₂ := by
  intro l
  induction l with
  | nil => intro s₁ s₂ _; rfl
  | cons a as ih =>
      intro s₁ s₂ hset
      by_cases ha : a ∈ s₁
      · rw [dedupAux, if_pos ha, dedupAux, if_pos ((hset a).mp ha)]
        exact ih s₁ s₂ hset
      · rw [dedupAux, if_neg ha, dedupAux, if_neg (fun h => ha ((hset a).mpr h))]
        rw [ih (a :: s₁) (a :: s₂) (fun b => by simp [hset b])]

theorem nodup_drop_duplicates {α : Type} [DecidableEq α] (l : List α) :
    (drop_duplicates l).Nodup :=
  nodup_dedupAux l []

theorem mem_drop_duplicates {α : Type} [DecidableEq α] (x : α) (l : List α) :
    x ∈ drop_duplicates l ↔ x ∈ l := by
  rw [drop_duplicates, mem_dedupAux]; simp


theorem pyFloatCore_dollar (l : List Char) : pyFloatCore ('$' :: l) = none := by
  rcases hl : List.dropWhile (fun c => c ≠ '.') l with _ | ⟨c, fp⟩ <;>
    simp [pyFloatCore, List.takeWhile_cons, List.dropWhile_cons, hl]

theorem pyFloat?_dollar (l : List Char) : pyFloat? ('$' :: l) = none := by
  simp [pyFloat?, pyFloatCore_dollar]

/-- C1: the Unit Normalizer maps `"$1.2M"` to `1200000.0`, `"45.3%"` to
`0.453` and `"3.5K"` to `3500.0`, and an input that is already a float is
returned unchanged. -/
theorem convert_units_examples :
    convert_units_to_float (.txt "$1.2M") = .ok 1200000 ∧
    convert_units_to_float (.txt "45.3%") = .ok (453 / 1000) ∧
    convert_units_to_float (.txt "3.5K") = .ok 3500 ∧
    ∀ q : ℚ, convert_units_to_float (.num q) = .ok q := by
  refine ⟨?_, ?_, ?_, fun q => rfl⟩ <;>
  · simp [convert_units_to_float, convert_units_chars, pyFloat?, pyFloatCore,
      toFloat, digitsToNat, Except.map]
    norm_num

/-- C2: every text token whose first character is `'-'` is clamped to `0`
by the Unit Normalizer; in particular `"-0.01%"` maps to `0`. -/
theorem negative_token_clamped_to_zero (rest : List Char) :
    convert_units_to_float (.txt ⟨'-' :: rest⟩) = .ok 0 ∧
    convert_units_to_float (.txt "-0.01%") = .ok 0 := by
  constructor
  · show convert_units_chars ('-' :: rest) = .ok 0
    simp [convert_units_chars]
  · simp [convert_units_to_float, convert_units_chars]

/-- C3 counterexample: on the token `"$45.3%"` the Unit Normalizer does
not return `0.453`; it raises `ValueError`, because the percent branch
slices `x[:-1]` without stripping the leading `'$'` and `float("$45.3")`
fails. -/
theorem dollar_percent_counterexample :
    convert_units_to_float (.txt "$45.3%") = .error .valueError ∧
    convert_units_to_float (.txt "$45.3%") ≠ .ok (453 / 1000) := by
  have h : convert_units_to_float (.txt "$45.3%") = .error .valueError := by
    simp [convert_units_to_float, convert_units_chars, pyFloat?, pyFloatCore,
      toFloat, Except.map]
  exact ⟨h, by rw [h]; simp⟩

/-- C3 amended: for every token that starts with the currency marker and
ends with the percent marker, the Unit Normalizer raises a parse failure
(`ValueError`): the percent branch does not strip the leading currency
marker before calling `float`, so the parse always fails. -/
theorem dollar_percent_raises (body : List Char) :
    convert_units_chars ('$' :: (body ++ ['%'])) = .error .valueError := by
  have hlast : (('$' :: (body ++ ['%'])).getLast?).getD ' ' = '%' := by
    rw [show ('$' :: (body ++ ['%'])) = (('$' :: body) ++ ['%']) from rfl,
      List.getLast?_concat]
    rfl
  have hdl : ('$' :: (body ++ ['%'])).dropLast = '$' :: body := by
    rw [show ('$' :: (body ++ ['%'])) = (('$' :: body) ++ ['%']) from rfl]
    exact List.dropLast_concat
  simp only [convert_units_chars, hlast, hdl]
  simp [pyFloat?_dollar, toFloat, Except.map]

/-- C4 counterexample: deduplication removes only exact-duplicate rows, so
two distinct rows that agree on Symbol and Description but differ in
another column both survive aggregation. -/
theorem dedup_sym_descr_counterexample :
    aggregate [[rowA, rowA2]] = [rowA, rowA2] ∧
    rowA.sym = rowA2.sym ∧ rowA.descr = rowA2.descr ∧ rowA ≠ rowA2 := by
  refine ⟨?_, rfl, rfl, by decide⟩
  decide

/-- C4 amended: after the Aggregator's deduplication step no two rows of
the resulting table are fully identical (the result has no duplicate
rows); rows sharing only the Symbol+Description pair may both remain. -/
theorem aggregate_nodup (pages : List (List Row)) : (aggregate pages).Nodup :=
  nodup_dedupAux pages.flatten []

/-- C5: the Aggregator concatenates the page snapshots in collection order
and drops exact duplicates, so a row present in two overlapping snapshots
appears exactly once in the merged table. -/
theorem aggregate_shared_row_once (p1 p2 : List Row) (r : Row)
    (h1 : r ∈ p1) (h2 : r ∈ p2) :
    (aggregate [p1, p2]).count r = 1 := by
  have hmem : r ∈ aggregate [p1, p2] := by
    rw [aggregate, mem_drop_duplicates]
    simp [h1]
  exact List.count_eq_one_of_mem (nodup_drop_duplicates _) hmem

theorem aggregate_shared_row_once_witness :
    (aggregate [[rowA], [rowA]]).count rowA = 1 :=
  aggregate_shared_row_once [rowA] [rowA] rowA (by simp) (by simp)

theorem num_pages_eq_add_div (n : ℕ) :
    num_pages (n : ℚ) = (((n + 59) / 60 : ℕ) : ℤ) := by
  obtain ⟨q, hq⟩ : ∃ q : ℕ, (n + 59) / 60 = q := ⟨_, rfl⟩
  have h1 : 60 * q ≤ n + 59 := by omega
  have h3 : n ≤ 60 * q := by omega
  have h1q : (60 : ℚ) * (q : ℚ) ≤ (n : ℚ) + 59 := by exact_mod_cast h1
  have h3q : (n : ℚ) ≤ 60 * (q : ℚ) := by exact_mod_cast h3
  rw [hq, num_pages, Int.ceil_eq_iff]
  constructor
  · rw [lt_div_iff₀ (by norm_num : (0 : ℚ) < 60)]
    push_cast
    linarith
  · rw [div_le_iff₀ (by norm_num : (0 : ℚ) < 60)]
    push_cast
    linarith

/-- C6: the page count is the ceiling of the parsed total-results value
divided by 60 — for a natural total it equals `(total + 59) / 60` in
integer arithmetic — and a parsed value of 123 yields 3 pages. -/
theorem num_pages_is_ceiling :
    (∀ n : ℕ, num_pages (n : ℚ) = (((n + 59) / 60 : ℕ) : ℤ)) ∧
    num_pages 123 = 3 := by
  refine ⟨num_pages_eq_add_div, ?_⟩
  have h : ((123 : ℕ) : ℚ) = (123 : ℚ) := by norm_num
  rw [← h, num_pages_eq_add_div]
  norm_num

/-- C7: a malformed cell makes the Unit Normalizer raise `ValueError`, and
an uncaught error from a symbol's fetch makes `run_schwab_download` return
that error at once: no later symbol in the queue is ever processed, the
whole run aborts. -/
theorem parse_error_aborts_whole_run (env : String → FetchResult)
    (sym : String) (rest : List String) (st : RunState)
    (hnv : sym ∉ st.valid_etfs)
    (herr : get_etf_from_schwab true env sym = .error .valueError) :
    run_schwab_download true env (sym :: rest) st = .error .valueError ∧
    convert_units_to_float (.txt "N/A") = .error .valueError := by
  constructor
  · rw [run_schwab_download, if_neg hnv, herr]
  · simp [convert_units_to_float, convert_units_chars, pyFloat?, pyFloatCore,
      toFloat]

theorem parse_error_aborts_whole_run_witness :
    run_schwab_download true envNA ["AAA", "BBB"] ⟨0, [], []⟩ =
      .error .valueError :=
  (parse_error_aborts_whole_run envNA "AAA" ["BBB"] ⟨0, [], []⟩
    (by simp) (by decide)).1

/-- C8: `HoldingsDownloader.__init__` never assigns `self.sort_mode`, yet
line 39 reads it, so every construction — whatever the arguments,
`sort_mode=True` included — raises `AttributeError` before any symbol can
be processed; no sorting ever happens. -/
theorem init_always_raises (symbol : String)
    (raw_mode log_mode sort_mode window_mode quiet_mode : Bool)
    (wait_time : ℕ) :
    HoldingsDownloader_init symbol raw_mode log_mode sort_mode window_mode
      quiet_mode wait_time = .error .attributeError := rfl

theorem run_ok_dedup (env : String → FetchResult)
    (hok : ∀ s, get_etf_from_schwab false env s = .ok true) :
    ∀ (syms : List String) (n : ℕ) (valid calls : List String),
      run_schwab_download false env syms ⟨n, valid, calls⟩ =
        .ok ⟨n + (dedupAux syms valid).length, valid ++ dedupAux syms valid,
          calls ++ dedupAux syms valid⟩ := by
  intro syms
  induction syms with
  | nil => intro n valid calls; simp [run_schwab_download, dedupAux]
  | cons s rest ih =>
      intro n valid calls
      rw [run_schwab_download]
      by_cases hs : s ∈ valid
      · rw [if_pos hs, ih n valid calls, dedupAux, if_pos hs]
      · rw [if_neg hs, hok s, dedupAux, if_neg hs]
        show run_schwab_download false env rest ⟨n + 1, valid ++ [s], calls ++ [s]⟩ = _
        rw [ih (n + 1) (valid ++ [s]) (calls ++ [s]),
          dedupAux_seen_congr rest (valid ++ [s]) (s :: valid)
            (fun a => by simp [or_comm])]
        simp [List.append_assoc]
        omega

/-- C9: with every fetch succeeding, `run_schwab_download` fetches each
distinct symbol exactly once, in first-occurrence order, skipping any
symbol already fetched successfully; `["AAA", "AAA", "BBB"]` fetches AAA
once and then BBB once. -/
theorem run_dedups_and_preserves_order (env : String → FetchResult)
    (hok : ∀ s, get_etf_from_schwab false env s = .ok true) :
    (∀ syms : List String,
      run_schwab_download false env syms ⟨0, [], []⟩ =
        .ok ⟨(drop_duplicates syms).length, drop_duplicates syms,
          drop_duplicates syms⟩) ∧
    run_schwab_download false env ["AAA", "AAA", "BBB"] ⟨0, [], []⟩ =
      .ok ⟨2, ["AAA", "BBB"], ["AAA", "BBB"]⟩ := by
  have hmain : ∀ syms : List String,
      run_schwab_download false env syms ⟨0, [], []⟩ =
        .ok ⟨(drop_duplicates syms).length, drop_duplicates syms,
          drop_duplicates syms⟩ := by
    intro syms
    have h := run_ok_dedup env hok syms 0 [] []
    simpa [drop_duplicates] using h
  refine ⟨hmain, ?_⟩
  have h := hmain ["AAA", "AAA", "BBB"]
  have hd : drop_duplicates ["AAA", "AAA", "BBB"] = ["AAA", "BBB"] := by decide
  rw [hd] at h
  simpa using h

theorem run_dedups_and_preserves_order_witness :
    run_schwab_download false envOK ["AAA", "AAA", "BBB"] ⟨0, [], []⟩ =
      .ok ⟨2, ["AAA", "BBB"], ["AAA", "BBB"]⟩ :=
  (run_dedups_and_preserves_order envOK (fun _ => rfl)).2

/-- C10: a token that starts with the currency marker, continues with a
negative sign and ends with the `M` magnitude suffix escapes the
negative-weight clamp (which tests only the first character): the slice
`x[start:-1]` keeps the sign, so the normalizer returns the negative
scaled value. -/
theorem dollar_negative_not_clamped (mid : List Char) (q : ℚ)
    (h : pyFloat? ('-' :: mid) = some q) :
    convert_units_chars ('$' :: '-' :: (mid ++ ['M'])) = .ok (q * 1000000) := by
  have hlast : (('-' :: (mid ++ ['M'])).getLast?).getD ' ' = 'M' := by
    rw [show ('-' :: (mid ++ ['M'])) = (('-' :: mid) ++ ['M'])
        from rfl, List.getLast?_concat]
    rfl
  have hdl : ('-' :: (mid ++ ['M'])).dropLast = '-' :: mid := by
    rw [show ('-' :: (mid ++ ['M'])) = (('-' :: mid) ++ ['M']) from rfl]
    exact List.dropLast_concat
  simp [convert_units_chars, hlast, hdl, h, toFloat, Except.map]

theorem dollar_negative_not_clamped_witness :
    ((-(6 / 5) : ℚ) * 1000000 < 0) ∧
    convert_units_chars ('$' :: '-' :: ("1.2".data ++ ['M'])) =
      .ok (-(6 / 5) * 1000000) := by
  refine ⟨by norm_num, dollar_negative_not_clamped "1.2".data (-(6 / 5)) ?_⟩
  show pyFloat? ['-', '1', '.', '2'] = some (-(6 / 5))
  simp [pyFloat?, pyFloatCore, digitsToNat]
  norm_num

end ETF
